import Mathlib

set_option autoImplicit false

/-!
Verification of the open62541Cpp server-side wrapper (`Open62541::Server` and
friends) against its natural-language specification.

The C++ sources are shallowly embedded: each inline member function of
`open62541server.h` that a claim mentions becomes a Lean function over an
explicit `ServerState` (the `_server` null flag and the `_lastError` status
member), parameterised by the status the external open62541 engine call
returns.  Parts of the system that live outside the provided sources (the
engine's node store, method-call validation, browse-path resolution and the
body of `createFolderPath`) are modelled from the specification text; each
such definition says so in its doc comment.
-/

namespace Open62541

/-! ## Status codes (numeric values as in open62541 `statuscodes.h`) -/

abbrev UA_StatusCode := Nat

def UA_STATUSCODE_GOOD : UA_StatusCode := 0

def UA_STATUSCODE_BADNODEIDUNKNOWN : UA_StatusCode := 0x80340000

def UA_STATUSCODE_BADUSERACCESSDENIED : UA_StatusCode := 0x801F0000

/-- The spec's `ArgumentCountMismatch` result code (the engine reports
`UA_STATUSCODE_BADARGUMENTSMISSING` for it). -/
def ArgumentCountMismatch : UA_StatusCode := 0x80760000

/-! ## Identifier and value types (`NodeId`, `QualifiedName`, `Variant`) -/

/-- The tagged union inside a `UA_NodeId`: numeric, string, guid or opaque
byte-string identifier. -/
inductive NodeIdent where
  | numeric (n : Nat)
  | str (s : String)
  | guid (g : Nat)
  | byteStr (bs : List Nat)
deriving DecidableEq, Repr

/-- A node identity: namespace index plus tagged identifier.  Equality is
componentwise, as in `UA_NodeId_equal`. -/
structure NodeId where
  namespaceIndex : Nat
  ident : NodeIdent
deriving DecidableEq, Repr

/-- A browse name: (namespace index, name string). -/
structure QualifiedName where
  namespaceIndex : Nat
  name : String
deriving DecidableEq, Repr

/-- A `UA_Variant` observed through what the round-trip law compares: the type
tag, the array-dimension metadata and the payload bytes. -/
structure Variant where
  typeTag : Nat
  dims : List Nat
  payload : List Nat
deriving DecidableEq, Repr

/-- The null Variant: no type, no dimensions, no data. -/
def Variant.null : Variant := ⟨0, [], []⟩

/-! ## The wrapper state

`Open62541::Server` keeps a `UA_Server* _server` (possibly null when
`UA_Server_new` failed) and a `UA_StatusCode _lastError` member; `lastOK()`
is `_lastError == UA_STATUSCODE_GOOD`. -/

structure ServerState where
  serverNull : Bool
  lastError : UA_StatusCode
deriving DecidableEq, Repr

/-- Embeds `Server::lastOK` (open62541server.h:883-885). -/
def ServerState.lastOK (st : ServerState) : Bool :=
  st.lastError == UA_STATUSCODE_GOOD

/-- C++ implicit `bool -> UA_StatusCode` conversion (true becomes 1). -/
def boolToStatus (b : Bool) : UA_StatusCode := if b then 1 else 0

/-! ## Wrapper operations embedded from `open62541server.h`

Each takes the status the underlying engine call returns as a parameter and
yields the C++ return value together with the updated member state. -/

/-- Embeds `Server::deleteNode` (open62541server.h:843-849): null-server guard,
then `_lastError = UA_Server_deleteNode(...)` and
`return _lastError != UA_STATUSCODE_GOOD;`. -/
def Server.deleteNode (st : ServerState) (engineStatus : UA_StatusCode) :
    Bool × ServerState :=
  if st.serverNull then (false, st)
  else
    let st1 : ServerState := { st with lastError := engineStatus }
    (decide (st1.lastError ≠ UA_STATUSCODE_GOOD), st1)

/-- Embeds `Server::readAttribute` (open62541server.h:430-435):
`_lastError = __UA_Server_read(...); return lastOK();`. -/
def Server.readAttribute (st : ServerState) (engineStatus : UA_StatusCode) :
    Bool × ServerState :=
  if st.serverNull then (false, st)
  else
    let st1 : ServerState := { st with lastError := engineStatus }
    (st1.lastOK, st1)

/-- Embeds `Server::writeAttribute` (open62541server.h:445-450):
`_lastError = __UA_Server_write(...) == UA_STATUSCODE_GOOD; return lastOK();`
— the boolean comparison is assigned to the status member. -/
def Server.writeAttribute (st : ServerState) (engineStatus : UA_StatusCode) :
    Bool × ServerState :=
  if st.serverNull then (false, st)
  else
    let st1 : ServerState :=
      { st with lastError := boolToStatus (engineStatus == UA_STATUSCODE_GOOD) }
    (st1.lastOK, st1)

/-- Embeds `Server::call` (open62541server.h:857-863) as far as its return
value is concerned: `ret.get() = UA_Server_call(_server, request);
return ret.get().statusCode == UA_STATUSCODE_GOOD;`. -/
def Server.call (st : ServerState) (engineStatus : UA_StatusCode) :
    Bool × ServerState :=
  if st.serverNull then (false, st)
  else (engineStatus == UA_STATUSCODE_GOOD, st)

/-- Embeds `Server::translateBrowsePathToNodeIds` (open62541server.h:871-877):
returns `result.get().statusCode == UA_STATUSCODE_GOOD`. -/
def Server.translateBrowsePathToNodeIds (st : ServerState)
    (engineStatus : UA_StatusCode) : Bool × ServerState :=
  if st.serverNull then (false, st)
  else (engineStatus == UA_STATUSCODE_GOOD, st)

/-! ## The engine-side value store

`__UA_Server_read` / `__UA_Server_write` live in the external open62541
engine, not in this repository's sources. -/

/-- UA_ACCESSLEVELMASK_READ bit. -/
def UA_ACCESSLEVELMASK_READ : Nat := 1

/-- UA_ACCESSLEVELMASK_WRITE bit. -/
def UA_ACCESSLEVELMASK_WRITE : Nat := 2

/-- A node as the engine's value store sees it for the Value attribute. -/
structure StoredNode where
  id : NodeId
  browseName : QualifiedName
  accessLevel : Nat
  value : Variant
deriving DecidableEq, Repr

/-- The engine's store of Variable nodes. -/
abbrev NodeStore := List StoredNode

/-- First node with the given id. -/
def NodeStore.findNode (s : NodeStore) (n : NodeId) : Option StoredNode :=
  s.find? (fun nd => nd.id == n)

/-- Modelled from the spec: the engine-side Value-attribute write performed by
`__UA_Server_write` (external engine, not among the provided sources) —
"fails with NodeNotFound if id absent", "a Variable-class write against a node
whose access level forbids writing fails with AccessDenied", otherwise commits
the Variant. -/
def engineWriteValue (s : NodeStore) (n : NodeId) (v : Variant) :
    UA_StatusCode × NodeStore :=
  match s.findNode n with
  | none => (UA_STATUSCODE_BADNODEIDUNKNOWN, s)
  | some nd =>
    if nd.accessLevel &&& UA_ACCESSLEVELMASK_WRITE == 0 then
      (UA_STATUSCODE_BADUSERACCESSDENIED, s)
    else
      (UA_STATUSCODE_GOOD,
        s.map fun m => if m.id == n then { m with value := v } else m)

/-- Modelled from the spec: the engine-side Value-attribute read performed by
`__UA_Server_read` (external engine, not among the provided sources) — "fails
with NodeNotFound if id absent", otherwise yields the stored Variant. -/
def engineReadValue (s : NodeStore) (n : NodeId) : UA_StatusCode × Variant :=
  match s.findNode n with
  | none => (UA_STATUSCODE_BADNODEIDUNKNOWN, Variant.null)
  | some nd => (UA_STATUSCODE_GOOD, nd.value)

/-- Embeds `Server::writeValue` (open62541server.h:1182-1187) over the
modelled engine store: `return UA_STATUSCODE_GOOD == (_lastError =
__UA_Server_write(..., UA_ATTRIBUTEID_VALUE, ...));`. -/
def Server.writeValueOn (st : ServerState) (s : NodeStore) (n : NodeId)
    (v : Variant) : Bool × ServerState × NodeStore :=
  if st.serverNull then (false, st, s)
  else
    let r := engineWriteValue s n v
    (UA_STATUSCODE_GOOD == r.1, { st with lastError := r.1 }, r.2)

/-- Embeds `Server::readValue` (open62541server.h:1015-1017), which is
`readAttribute(nodeId, UA_ATTRIBUTEID_VALUE, ...)` (430-435), over the
modelled engine store. -/
def Server.readValueOn (st : ServerState) (s : NodeStore) (n : NodeId) :
    Bool × ServerState × Variant :=
  if st.serverNull then (false, st, Variant.null)
  else
    let r := engineReadValue s n
    (ServerState.lastOK { st with lastError := r.1 },
      { st with lastError := r.1 }, r.2)

/-! ## Node contexts -/

/-- A `NodeContext*` modelled as an optional context name. -/
abbrev NodeContextPtr := Option String

/-- Embeds `Server::getNodeContext` (open62541server.h:396-401): the caller's
pointer `c` is copied into a local `void* p`, the engine writes the retrieved
context through `&p`, and the function returns `lastOK()`; nothing is ever
written back into `c`. -/
def Server.getNodeContext (st : ServerState) (n : NodeId) (c : NodeContextPtr)
    (engine : NodeId → UA_StatusCode × NodeContextPtr) :
    Bool × ServerState × NodeContextPtr :=
  if st.serverNull then (false, st, c)
  else
    let r := engine n
    let st1 : ServerState := { st with lastError := r.1 }
    (st1.lastOK, st1, c)

/-! ## Default access-control policy

The overridable policy is the set of virtual member functions of `Server`;
their bodies in `open62541server.h` are the default policy. -/

/-- Embeds the default `Server::allowAddNode` (open62541server.h:1810-1814):
`return true;`. -/
def Server.allowAddNodeDefault : Bool := true

/-- Embeds the default `Server::allowDeleteNode` (open62541server.h:1838-1842):
`return false; // Do not allow deletion from client`. -/
def Server.allowDeleteNodeDefault : Bool := false

/-- Embeds the default `Server::getUserAccessLevel`
(open62541server.h:1891-1895): `return 0;`. -/
def Server.getUserAccessLevelDefault : Nat := 0

/-- Whether a user access-level byte permits reading a variable value
(the READ bit of the access-level mask is set). -/
def permitsValueRead (accessLevel : Nat) : Bool :=
  (accessLevel &&& UA_ACCESSLEVELMASK_READ) != 0

/-! ## Locking discipline

Each wrapper operation is summarised by the sequence of lock and engine events
its body performs (with a non-null server), read off the source line by line:
a `WriteLock l(_mutex)` contributes an acquire at its declaration and a
release when the scope ends. -/

inductive StoreEvent where
  | acquireWrite
  | releaseWrite
  | engineOp (name : String)
  | handlerRun
deriving DecidableEq, BEq, Repr

/-- Event trace of `Server::readAttribute` (open62541server.h:430-435). -/
def readAttributeTrace : List StoreEvent :=
  [.acquireWrite, .engineOp "__UA_Server_read", .releaseWrite]

/-- Event trace of `Server::writeAttribute` (open62541server.h:445-450). -/
def writeAttributeTrace : List StoreEvent :=
  [.acquireWrite, .engineOp "__UA_Server_write", .releaseWrite]

/-- Event trace of `Server::writeValue` (open62541server.h:1182-1187): the
body calls `__UA_Server_write` directly and declares no lock. -/
def writeValueTrace : List StoreEvent :=
  [.engineOp "__UA_Server_write"]

/-- Event trace of `Server::deleteNode` (open62541server.h:843-849). -/
def deleteNodeTrace : List StoreEvent :=
  [.acquireWrite, .engineOp "UA_Server_deleteNode", .releaseWrite]

/-- Event trace of `Server::addObjectNode` (open62541server.h:1376-1397). -/
def addObjectNodeTrace : List StoreEvent :=
  [.acquireWrite, .engineOp "UA_Server_addObjectNode", .releaseWrite]

/-- Event trace of `Server::addObjectTypeNode` (open62541server.h:1410-1428):
unlike its sibling add operations, the body declares no lock. -/
def addObjectTypeNodeTrace : List StoreEvent :=
  [.engineOp "UA_Server_addObjectTypeNode"]

/-- Event trace of `Server::call` (open62541server.h:857-863): the
`WriteLock` is in scope while `UA_Server_call` runs, and `UA_Server_call`
invokes the registered method handler (`ServerMethod::methodCallback`,
servermethod.cpp:16-32) before it returns. -/
def callTrace : List StoreEvent :=
  [.acquireWrite, .engineOp "UA_Server_call", .handlerRun, .releaseWrite]

/-- The public operations whose traces are embedded above. -/
def publicOpTraces : List (String × List StoreEvent) :=
  [("readAttribute", readAttributeTrace),
   ("writeAttribute", writeAttributeTrace),
   ("writeValue", writeValueTrace),
   ("deleteNode", deleteNodeTrace),
   ("addObjectNode", addObjectNodeTrace),
   ("addObjectTypeNode", addObjectTypeNodeTrace),
   ("call", callTrace)]

/-- True when some `handlerRun` event happens while the lock depth (starting
from the given depth) is positive. -/
def handlerRunsUnderLock : Nat → List StoreEvent → Bool
  | _, [] => false
  | d, .acquireWrite :: es => handlerRunsUnderLock (d + 1) es
  | d, .releaseWrite :: es => handlerRunsUnderLock (d - 1) es
  | d, .handlerRun :: es => decide (0 < d) || handlerRunsUnderLock d es
  | d, .engineOp _ :: es => handlerRunsUnderLock d es

/-- True when the trace holds the lock for the whole call: it starts with an
acquire and ends with the matching release. -/
def lockedForWholeCall (tr : List StoreEvent) : Bool :=
  tr.head? == some .acquireWrite && tr.getLast? == some .releaseWrite

/-- True when the trace performs no locking at all. -/
def takesNoLock (tr : List StoreEvent) : Bool :=
  tr.all fun e => !(e == .acquireWrite) && !(e == .releaseWrite)

/-! ## Exception behaviour -/

/-- Outcome of a call: a returned value, or a C++ exception escaping it. -/
inductive CallOutcome (α : Type) where
  | ok (a : α)
  | threw (msg : String)
deriving DecidableEq, Repr

def CallOutcome.isThrew {α : Type} : CallOutcome α → Bool
  | .threw _ => true
  | .ok _ => false

/-- Embeds `Server::browseName` (open62541server.h:646-654): unlike every
other operation, a null `_server` raises
`throw std::runtime_error("Null server")`; otherwise the function returns
`lastOK()` (reading the browse name never updates `_lastError`). -/
def Server.browseNameOutcome (st : ServerState) (engineStatus : UA_StatusCode) :
    CallOutcome Bool :=
  if st.serverNull then .threw "Null server"
  else
    let _ := engineStatus == UA_STATUSCODE_GOOD
    .ok st.lastOK

/-- The outcome of each embedded public operation, given the wrapper state,
the status the respective engine call would return, and sample arguments. -/
def opOutcomes (st : ServerState) (e : UA_StatusCode) (v : Variant)
    (n : NodeId) (store : NodeStore) : List (String × CallOutcome Bool) :=
  [("deleteNode", .ok (Server.deleteNode st e).1),
   ("readAttribute", .ok (Server.readAttribute st e).1),
   ("writeAttribute", .ok (Server.writeAttribute st e).1),
   ("writeValue", .ok (Server.writeValueOn st store n v).1),
   ("readValue", .ok (Server.readValueOn st store n).1),
   ("call", .ok (Server.call st e).1),
   ("translateBrowsePathToNodeIds",
     .ok (Server.translateBrowsePathToNodeIds st e).1),
   ("getNodeContext",
     .ok (Server.getNodeContext st n none (fun _ => (e, none))).1),
   ("browseName", Server.browseNameOutcome st e)]

/-! ## Method dispatch -/

/-- An input or output argument descriptor (`UA_Argument`): a data type and
an array rank. -/
structure Argument where
  dataType : NodeId
  valueRank : Int
deriving DecidableEq, Repr

/-- A default-constructed argument descriptor, as `std::vector::resize`
produces. -/
def Argument.default : Argument := ⟨⟨0, .numeric 0⟩, -1⟩

/-- A `ServerMethod`: name plus the `_in` / `_out` argument vectors. -/
structure ServerMethod where
  name : String
  inArgs : List Argument
  outArgs : List Argument
deriving DecidableEq, Repr

/-- Embeds `ServerMethod::ServerMethod` (servermethod.cpp:34-39):
`_in.resize(nInputs + 1); _out.resize(nOutputs + 1);`. -/
def ServerMethod.make (n : String) (nInputs nOutputs : Nat) : ServerMethod :=
  { name := n
    inArgs := List.replicate (nInputs + 1) Argument.default
    outArgs := List.replicate (nOutputs + 1) Argument.default }

/-- Embeds the input arity `Server::addServerMethod` declares to the engine
(open62541server.h:593): `method->in().size() - 1`. -/
def Server.declaredInputArity (m : ServerMethod) : Nat := m.inArgs.length - 1

/-- Embeds the output arity `Server::addServerMethod` declares to the engine
(open62541server.h:595): `method->out().size() - 1`. -/
def Server.declaredOutputArity (m : ServerMethod) : Nat := m.outArgs.length - 1

/-- What a method call produced: its status, the outputs copied back to the
caller, and whether the user handler body ran. -/
structure CallRecord where
  status : UA_StatusCode
  outputs : List Variant
  handlerRan : Bool
deriving DecidableEq, Repr

/-- Modelled from the spec: the argument validation the external engine's
`UA_Server_call` performs around the registered handler (the engine is not
among the provided sources) — "the store validates `inputs.size() ==
nInputs` (mismatch fails with `ArgumentCountMismatch` before the user handler
runs), invokes the handler, and copies returned output Variants into the
caller-provided output buffer, failing with `ArgumentCountMismatch` again if
the handler produced a different output count than declared". -/
def engineCallMethod (m : ServerMethod) (handler : List Variant → List Variant)
    (inputs : List Variant) : CallRecord :=
  if inputs.length ≠ Server.declaredInputArity m then
    { status := ArgumentCountMismatch, outputs := [], handlerRan := false }
  else
    let outs := handler inputs
    if outs.length ≠ Server.declaredOutputArity m then
      { status := ArgumentCountMismatch, outputs := [], handlerRan := true }
    else
      { status := UA_STATUSCODE_GOOD, outputs := outs, handlerRan := true }

/-! ## Browse-path resolution -/

/-- A node as path resolution sees it: identity and browse name. -/
structure SpaceNode where
  id : NodeId
  browseName : QualifiedName
deriving DecidableEq, Repr

/-- An address space for browsing: nodes plus forward hierarchical
references (source, target). -/
structure AddressSpace where
  nodes : List SpaceNode
  hierRefs : List (NodeId × NodeId)
deriving DecidableEq, Repr

/-- Browse name of a node in the space. -/
def AddressSpace.nameOf (sp : AddressSpace) (n : NodeId) : Option QualifiedName :=
  (sp.nodes.find? (fun m => m.id == n)).map SpaceNode.browseName

/-- The candidates of one path segment: the targets of forward hierarchical
references leaving the current node whose browse name is the segment's. -/
def AddressSpace.candidates (sp : AddressSpace) (cur : NodeId)
    (qn : QualifiedName) : List NodeId :=
  (sp.hierRefs.filter
    (fun r => r.1 == cur && sp.nameOf r.2 == some qn)).map Prod.snd

/-- Result of a browse-path resolution. -/
inductive PathResult where
  | resolved (n : NodeId)
  | noMatch
  | ambiguous
deriving DecidableEq, Repr

/-- Modelled from the spec: the resolution behind
`Server::translateBrowsePathToNodeIds` (the walk itself happens in the
external engine's `UA_Server_translateBrowsePathToNodeIds`, not among the
provided sources) — "walks a sequence of (reference-type, browse-name) pairs
starting at origin, following only forward hierarchical references, and
returns the terminal NodeId, or a no-match result if any segment has zero or
more-than-one candidate (ambiguous paths are not resolved)". -/
def resolvePath (sp : AddressSpace) (origin : NodeId) :
    List QualifiedName → PathResult
  | [] => .resolved origin
  | qn :: rest =>
    match sp.candidates origin qn with
    | [] => .noMatch
    | [t] => resolvePath sp t rest
    | _ :: _ :: _ => .ambiguous

/-- A space with two siblings of node 1 that share the browse name (1, "A"):
the spec's ambiguity scenario. -/
def twoSiblingSpace : AddressSpace :=
  { nodes := [⟨⟨1, .numeric 1⟩, ⟨1, "O"⟩⟩,
              ⟨⟨1, .numeric 2⟩, ⟨1, "A"⟩⟩,
              ⟨⟨1, .numeric 3⟩, ⟨1, "A"⟩⟩]
    hierRefs := [(⟨1, .numeric 1⟩, ⟨1, .numeric 2⟩),
                 (⟨1, .numeric 1⟩, ⟨1, .numeric 3⟩)] }

/-- The "Count" variable of the spec's round-trip scenario, writable and
initially null. -/
def countNode : StoredNode := ⟨⟨1, .numeric 5⟩, ⟨1, "Count"⟩, 3, Variant.null⟩

/-- `Variant(42)`: an Int32 scalar with payload 42. -/
def variant42 : Variant := ⟨6, [], [42]⟩

/-! ## Folder-path creation -/

/-- A folder-tree node: identity, browse name, and the parent it hangs
under. -/
structure FolderNode where
  id : NodeId
  browseName : QualifiedName
  parent : NodeId
deriving DecidableEq, Repr

/-- The store as folder-path creation sees it: the nodes plus the next
auto-assignable numeric id. -/
structure FolderStore where
  nodes : List FolderNode
  nextId : Nat
deriving DecidableEq, Repr

/-- The existing child of `parent` carrying browse name `qn`, if any
(first match). -/
def findChildIn (l : List FolderNode) (parent : NodeId) (qn : QualifiedName) :
    Option NodeId :=
  (l.find? fun m => m.parent == parent && m.browseName == qn).map FolderNode.id

/-- Modelled from the spec: `Server::createFolderPath` (declared at
open62541server.h:687; its definition lives in open62541server.cpp, which is
not among the provided sources) — "splits path into segments; for each
segment, resolves an existing child with that browse name under the current
node, or creates a Folder-class node if none exists".  A created folder
receives the next auto-assigned numeric id in the requested namespace.
Returns the leaf NodeId and the updated store. -/
def createFolderPath (ns : Nat) :
    FolderStore → NodeId → List String → NodeId × FolderStore
  | s, start, [] => (start, s)
  | s, start, seg :: rest =>
    match findChildIn s.nodes start ⟨ns, seg⟩ with
    | some c => createFolderPath ns s c rest
    | none =>
      createFolderPath ns
        ⟨s.nodes ++ [⟨⟨ns, .numeric s.nextId⟩, ⟨ns, seg⟩, start⟩],
          s.nextId + 1⟩
        ⟨ns, .numeric s.nextId⟩ rest

end Open62541

namespace Open62541

/-! ## Theorems for claims C2 and C8 -/

/-- C2 counterexample: the claim says every public mutating or reading store
operation acquires the process-wide lock for the duration of the call and
that the lock is never held across a method-call handler invocation.  Both
conjuncts fail on the embedded traces: `writeValue` and `addObjectTypeNode`
acquire no lock, and in `call` the handler runs at lock depth 1. -/
theorem locking_discipline_claim_false :
    ¬ ((publicOpTraces.all fun p => lockedForWholeCall p.2) = true ∧
       handlerRunsUnderLock 0 callTrace = false) := by
  decide

/-- C2 (amended): `readAttribute`, `writeAttribute`, `deleteNode`,
`addObjectNode` and `call` do hold the write lock for the whole call, but
`writeValue` and `addObjectTypeNode` perform no locking at all, and `call`
holds the write lock while the user method handler runs, so a handler that
re-enters the store contends with the lock its own call already holds. -/
theorem locking_discipline_of_the_source :
    lockedForWholeCall readAttributeTrace = true ∧
    lockedForWholeCall writeAttributeTrace = true ∧
    lockedForWholeCall deleteNodeTrace = true ∧
    lockedForWholeCall addObjectNodeTrace = true ∧
    lockedForWholeCall callTrace = true ∧
    takesNoLock writeValueTrace = true ∧
    takesNoLock addObjectTypeNodeTrace = true ∧
    handlerRunsUnderLock 0 callTrace = true := by
  decide

/-- C8 counterexample: the claim says no public operation ever throws out of
the call, and in particular that `browseName` on a null underlying server
returns a failure status.  On the embedded operations this fails: with a
null server, `browseName` throws `std::runtime_error("Null server")`. -/
theorem operation_outcomes_claim_false :
    ¬ (((opOutcomes ⟨true, 0⟩ 0 Variant.null ⟨1, .numeric 7⟩ []).all
          fun p => !p.2.isThrew) = true) := by
  decide

/-- C8 (amended): every embedded public operation other than `browseName`
returns a recoverable result for every input — on a null server it returns
false rather than throwing — and `browseName` is the single exception: the
only way any embedded operation throws is `browseName` invoked on a server
whose underlying engine pointer is null. -/
theorem only_browseName_throws_and_only_on_null_server
    (st : ServerState) (e : UA_StatusCode) (v : Variant) (n : NodeId)
    (store : NodeStore) (p : String × CallOutcome Bool)
    (hmem : p ∈ opOutcomes st e v n store)
    (hthrew : p.2.isThrew = true) :
    p.1 = "browseName" ∧ st.serverNull = true := by
  simp only [opOutcomes, List.mem_cons, List.mem_singleton] at hmem
  rcases hmem with rfl | rfl | rfl | rfl | rfl | rfl | rfl | rfl | rfl | h
  · simp [CallOutcome.isThrew] at hthrew
  · simp [CallOutcome.isThrew] at hthrew
  · simp [CallOutcome.isThrew] at hthrew
  · simp [CallOutcome.isThrew] at hthrew
  · simp [CallOutcome.isThrew] at hthrew
  · simp [CallOutcome.isThrew] at hthrew
  · simp [CallOutcome.isThrew] at hthrew
  · simp [CallOutcome.isThrew] at hthrew
  · refine ⟨rfl, ?_⟩
    by_cases h : st.serverNull
    · exact h
    · simp [Server.browseNameOutcome, h, CallOutcome.isThrew] at hthrew
  · simp at h

/-- C8 witness: the amended theorem applied to the `browseName` entry of the
outcome list for a null-server state. -/
theorem only_browseName_throws_witness :
    (("browseName", (CallOutcome.threw "Null server" : CallOutcome Bool)) :
        String × CallOutcome Bool).1 = "browseName" ∧
    (ServerState.mk true 0).serverNull = true :=
  only_browseName_throws_and_only_on_null_server
    ⟨true, 0⟩ 0 Variant.null ⟨1, .numeric 7⟩ []
    ("browseName", CallOutcome.threw "Null server")
    (by decide) (by decide)

/-! ## Theorems for claims C5 and C6 -/

/-- C5: for a method registered through `ServerMethod(name, nInputs,
nOutputs)` and `Server::addServerMethod` — which declares input arity
`_in.size() - 1 = nInputs` and output arity `_out.size() - 1 = nOutputs` to
the engine — a call whose input vector size differs from `nInputs` fails with
`ArgumentCountMismatch` and the user handler does not run, and a call whose
handler returns an output count different from `nOutputs` also fails with
`ArgumentCountMismatch` (the handler having run). -/
theorem method_call_validates_declared_arity (n : String) (nIn nOut : Nat)
    (handler : List Variant → List Variant) (inputs : List Variant) :
    (inputs.length ≠ nIn →
      engineCallMethod (ServerMethod.make n nIn nOut) handler inputs =
        { status := ArgumentCountMismatch, outputs := [], handlerRan := false }) ∧
    (inputs.length = nIn → (handler inputs).length ≠ nOut →
      engineCallMethod (ServerMethod.make n nIn nOut) handler inputs =
        { status := ArgumentCountMismatch, outputs := [], handlerRan := true }) := by
  constructor
  · intro h
    simp [engineCallMethod, Server.declaredInputArity, ServerMethod.make, h]
  · intro h1 h2
    simp [engineCallMethod, Server.declaredInputArity, Server.declaredOutputArity,
      ServerMethod.make, h1, h2]

/-- C5 witness: the spec's scenario — a method declared with 2 inputs and
1 output invoked with 1 input fails with `ArgumentCountMismatch` without
running the handler, and the same method with a handler that returns no
outputs fails with `ArgumentCountMismatch` after the handler ran. -/
theorem method_call_validates_declared_arity_witness :
    engineCallMethod (ServerMethod.make "TestMethod" 2 1)
        (fun _ => [Variant.null]) [Variant.null] =
      { status := ArgumentCountMismatch, outputs := [], handlerRan := false } ∧
    engineCallMethod (ServerMethod.make "TestMethod" 2 1)
        (fun _ => []) [Variant.null, Variant.null] =
      { status := ArgumentCountMismatch, outputs := [], handlerRan := true } :=
  ⟨(method_call_validates_declared_arity "TestMethod" 2 1
      (fun _ => [Variant.null]) [Variant.null]).1 (by decide),
   (method_call_validates_declared_arity "TestMethod" 2 1
      (fun _ => []) [Variant.null, Variant.null]).2 rfl (by decide)⟩

/-- C6: path resolution resolves a segment only when it has exactly one
candidate: a segment with zero candidates yields the no-match result, and a
segment with more than one candidate (two siblings sharing a browse name)
yields the ambiguous result — never an arbitrarily picked node. -/
theorem resolvePath_requires_unique_candidate (sp : AddressSpace)
    (origin : NodeId) (qn : QualifiedName) (rest : List QualifiedName) :
    (sp.candidates origin qn = [] →
      resolvePath sp origin (qn :: rest) = .noMatch) ∧
    (1 < (sp.candidates origin qn).length →
      resolvePath sp origin (qn :: rest) = .ambiguous ∧
      ∀ t, resolvePath sp origin (qn :: rest) ≠ .resolved t) := by
  constructor
  · intro he
    unfold resolvePath
    rw [he]
  · intro hlt
    rcases hc : sp.candidates origin qn with _ | ⟨a, _ | ⟨b, tl⟩⟩
    · rw [hc] at hlt; simp at hlt
    · rw [hc] at hlt; simp at hlt
    · constructor
      · unfold resolvePath
        rw [hc]
      · intro t
        unfold resolvePath
        rw [hc]
        simp

/-- C6 witness: in `twoSiblingSpace`, the path ["A"] from node 1 has two
candidates, and the theorem yields the ambiguous result for it. -/
theorem resolvePath_requires_unique_candidate_witness :
    resolvePath twoSiblingSpace ⟨1, .numeric 1⟩ [⟨1, "A"⟩] = .ambiguous :=
  ((resolvePath_requires_unique_candidate twoSiblingSpace ⟨1, .numeric 1⟩
      ⟨1, "A"⟩ []).2 (by decide)).1

end Open62541

namespace Open62541

/-! ## Theorems for claims C1, C3, C9, C10 -/

/-- C1: the claim says `deleteNode` reports success (true) exactly when the
underlying deletion status is good and reports failure for an absent node.
The embedded code does the opposite: with a non-null server, a good engine
status makes `deleteNode` return false, and the absent-node status
`UA_STATUSCODE_BADNODEIDUNKNOWN` makes it return true — the success check
`return _lastError != UA_STATUSCODE_GOOD;` is inverted, the defect §9 of the
spec describes. -/
theorem deleteNode_success_check_is_inverted :
    (Server.deleteNode ⟨false, 0⟩ UA_STATUSCODE_GOOD).1 = false ∧
    (Server.deleteNode ⟨false, 0⟩ UA_STATUSCODE_BADNODEIDUNKNOWN).1 = true := by
  decide

/-- C3: the claim says `writeAttribute` fails for an absent node id and
reports success exactly when the underlying write status is good, and that
`readAttribute` fails for an absent id.  The embedded code inverts the
`writeAttribute` report: assigning `__UA_Server_write(...) ==
UA_STATUSCODE_GOOD` to `_lastError` stores 1 on a good write (so `lastOK()`
is false) and 0 on a failed write (so `lastOK()` is true).  Hence a write to
an absent node — engine status `UA_STATUSCODE_BADNODEIDUNKNOWN`, as produced
by the modelled engine on an empty store — returns true, while a good write
returns false.  `readAttribute` behaves as claimed. -/
theorem writeAttribute_success_report_is_inverted :
    (Server.writeAttribute ⟨false, 0⟩
      (engineWriteValue [] ⟨1, .numeric 7⟩ Variant.null).1).1 = true ∧
    (Server.writeAttribute ⟨false, 0⟩ UA_STATUSCODE_GOOD).1 = false ∧
    (Server.readAttribute ⟨false, 0⟩ UA_STATUSCODE_BADNODEIDUNKNOWN).1 = false := by
  decide

/-- C9 counterexample: the claim asserts the default policy permits node
additions, denies remote deletions, and grants a user access level that
permits reading variable values.  The third conjunct fails: the default
`getUserAccessLevel` returns 0, whose READ bit is clear, so the conjunction
is false. -/
theorem default_policy_claim_false :
    ¬ (Server.allowAddNodeDefault = true ∧
       Server.allowDeleteNodeDefault = false ∧
       permitsValueRead Server.getUserAccessLevelDefault = true) := by
  decide

/-- C9 (amended): the default policy permits node additions (allow for every
request) and denies node deletions initiated by remote sessions, but the user
access level it grants is 0, which permits no access at all — in particular it
does not permit reading variable values. -/
theorem default_policy_allows_add_denies_delete_grants_no_access :
    Server.allowAddNodeDefault = true ∧
    Server.allowDeleteNodeDefault = false ∧
    Server.getUserAccessLevelDefault = 0 ∧
    permitsValueRead Server.getUserAccessLevelDefault = false := by
  decide

/-- C10: `getNodeContext(n, c)` leaves the caller's context pointer unchanged:
whatever the engine reports and whether the call succeeds or fails (including
the null-server early return), the returned pointer slot is exactly the value
`c` held before the call — the retrieved context only ever reaches the local
copy. -/
theorem getNodeContext_leaves_caller_pointer_unchanged
    (st : ServerState) (n : NodeId) (c : NodeContextPtr)
    (engine : NodeId → UA_StatusCode × NodeContextPtr) :
    (Server.getNodeContext st n c engine).2.2 = c := by
  unfold Server.getNodeContext
  by_cases h : st.serverNull <;> simp [h]

/-! ## Helper lemmas for the round-trip law (C4) -/

/-- Updating the value of the nodes with id `n` commutes with looking `n`
up. -/
theorem findNode_map_update (s : NodeStore) (n : NodeId) (v : Variant) :
    NodeStore.findNode
        (s.map fun m => if m.id == n then { m with value := v } else m) n =
      (NodeStore.findNode s n).map fun nd => { nd with value := v } := by
  induction s with
  | nil => rfl
  | cons m t ih =>
    cases h : m.id == n with
    | false =>
      simp only [NodeStore.findNode, List.map_cons] at ih ⊢
      rw [if_neg (by simp [h])]
      rw [List.find?_cons_of_neg _ (by simp [h]),
        List.find?_cons_of_neg _ (by simp [h])]
      exact ih
    | true =>
      simp only [NodeStore.findNode, List.map_cons]
      rw [if_pos h]
      simp [List.find?_cons, h]

/-- C4: with a non-null server, whenever `writeValue` reports success for a
Variant, reading the same node's Value attribute immediately afterwards
succeeds and returns a Variant equal to what was written — equal as a whole,
hence by type tag, dimensionality and payload bytes.  (When access control
denies the write or the node is absent, `writeValue` does not report success,
so the hypothesis filters those cases out, matching the claim's
exception.) -/
theorem write_then_read_value_roundtrip (st : ServerState) (s : NodeStore)
    (n : NodeId) (v : Variant) (hsrv : st.serverNull = false)
    (hok : (Server.writeValueOn st s n v).1 = true) :
    (Server.readValueOn (Server.writeValueOn st s n v).2.1
        (Server.writeValueOn st s n v).2.2 n).1 = true ∧
    (Server.readValueOn (Server.writeValueOn st s n v).2.1
        (Server.writeValueOn st s n v).2.2 n).2.2 = v := by
  have hW : Server.writeValueOn st s n v =
      (UA_STATUSCODE_GOOD == (engineWriteValue s n v).1,
        { st with lastError := (engineWriteValue s n v).1 },
        (engineWriteValue s n v).2) := by
    unfold Server.writeValueOn
    rw [if_neg (by simp [hsrv])]
  rw [hW] at hok ⊢
  have hstat : UA_STATUSCODE_GOOD = (engineWriteValue s n v).1 := by
    simpa using hok
  cases hf : s.findNode n with
  | none =>
    exfalso
    have he1 : (engineWriteValue s n v).1 = UA_STATUSCODE_BADNODEIDUNKNOWN := by
      unfold engineWriteValue
      simp only [hf]
    rw [he1] at hstat
    exact absurd hstat (by decide)
  | some nd =>
    by_cases hw : (nd.accessLevel &&& UA_ACCESSLEVELMASK_WRITE == 0) = true
    · exfalso
      have he1 : (engineWriteValue s n v).1 =
          UA_STATUSCODE_BADUSERACCESSDENIED := by
        unfold engineWriteValue
        simp only [hf]
        rw [if_pos hw]
      rw [he1] at hstat
      exact absurd hstat (by decide)
    · have he : engineWriteValue s n v =
          (UA_STATUSCODE_GOOD,
            s.map fun m => if m.id == n then { m with value := v } else m) := by
        unfold engineWriteValue
        simp only [hf]
        rw [if_neg hw]
      have hfind : NodeStore.findNode (engineWriteValue s n v).2 n =
          some { nd with value := v } := by
        rw [he]
        show NodeStore.findNode
            (s.map fun m => if m.id == n then { m with value := v } else m) n =
          some { nd with value := v }
        rw [findNode_map_update, hf]
        rfl
      have hread : ∀ (st2 : ServerState) (s2 : NodeStore),
          st2.serverNull = false →
          NodeStore.findNode s2 n = some { nd with value := v } →
          Server.readValueOn st2 s2 n =
            (true, { st2 with lastError := UA_STATUSCODE_GOOD }, v) := by
        intro st2 s2 h1 h2
        unfold Server.readValueOn
        rw [if_neg (by simp [h1])]
        unfold engineReadValue
        rw [h2]
        rfl
      constructor
      · rw [hread _ _ (by simp [hsrv]) hfind]
      · rw [hread _ _ (by simp [hsrv]) hfind]

/-- C4 witness: writing `Variant(42)` to the present, writable `Count` node
and reading it back returns `Variant(42)`. -/
theorem write_then_read_value_roundtrip_witness :
    (Server.readValueOn
        (Server.writeValueOn ⟨false, 0⟩ [countNode] countNode.id variant42).2.1
        (Server.writeValueOn ⟨false, 0⟩ [countNode] countNode.id variant42).2.2
        countNode.id).1 = true ∧
    (Server.readValueOn
        (Server.writeValueOn ⟨false, 0⟩ [countNode] countNode.id variant42).2.1
        (Server.writeValueOn ⟨false, 0⟩ [countNode] countNode.id variant42).2.2
        countNode.id).2.2 = variant42 :=
  write_then_read_value_roundtrip ⟨false, 0⟩ [countNode] countNode.id variant42
    rfl (by decide)

/-! ## Helper lemmas for folder-path idempotence (C7) -/

/-- A child found in the nodes is still found after nodes are appended. -/
theorem findChildIn_append_some (l l2 : List FolderNode) (p : NodeId)
    (qn : QualifiedName) (c : NodeId) (h : findChildIn l p qn = some c) :
    findChildIn (l ++ l2) p qn = some c := by
  unfold findChildIn at h ⊢
  cases hf : l.find? (fun m => m.parent == p && m.browseName == qn) with
  | none => rw [hf] at h; simp at h
  | some m =>
    rw [hf] at h
    rw [List.find?_append, hf]
    exact h

/-- `createFolderPath` only appends nodes to the store. -/
theorem createFolderPath_nodes_extends (ns : Nat) (path : List String) :
    ∀ (s : FolderStore) (start : NodeId),
      ∃ ext, (createFolderPath ns s start path).2.nodes = s.nodes ++ ext := by
  induction path with
  | nil => exact fun s start => ⟨[], by simp [createFolderPath]⟩
  | cons seg rest ih =>
    intro s start
    simp only [createFolderPath]
    cases hf : findChildIn s.nodes start ⟨ns, seg⟩ with
    | some c => exact ih s c
    | none =>
      obtain ⟨ext, hext⟩ :=
        ih ⟨s.nodes ++ [⟨⟨ns, .numeric s.nextId⟩, ⟨ns, seg⟩, start⟩],
              s.nextId + 1⟩
          ⟨ns, .numeric s.nextId⟩
      exact ⟨⟨⟨ns, .numeric s.nextId⟩, ⟨ns, seg⟩, start⟩ :: ext,
        by rw [hext]; simp⟩

/-- Resolvable children stay resolvable, to the same node, across any
`createFolderPath` run. -/
theorem findChildIn_preserved (ns : Nat) (path : List String)
    (s : FolderStore) (start p : NodeId) (qn : QualifiedName) (c : NodeId)
    (h : findChildIn s.nodes p qn = some c) :
    findChildIn (createFolderPath ns s start path).2.nodes p qn = some c := by
  obtain ⟨ext, hext⟩ := createFolderPath_nodes_extends ns path s start
  rw [hext]
  exact findChildIn_append_some _ _ _ _ _ h

/-- C7: `createFolderPath` is idempotent — running it a second time from the
same start node, with the same namespace index and the same path, on the
store the first run produced, yields the same leaf NodeId and leaves the
store unchanged (so the second call creates no duplicate nodes); and in the
concrete "A/B/C" scenario run twice from an empty store, the store holds
exactly one node browse-named "A", one "B" and one "C". -/
theorem createFolderPath_idempotent (ns : Nat) (path : List String)
    (s : FolderStore) (start : NodeId) :
    (createFolderPath ns (createFolderPath ns s start path).2 start path =
      createFolderPath ns s start path) ∧
    ((createFolderPath 2
          (createFolderPath 2 ⟨[], 0⟩ ⟨0, .numeric 85⟩ ["A", "B", "C"]).2
          ⟨0, .numeric 85⟩ ["A", "B", "C"]).2.nodes.countP
        (fun m => m.browseName == ⟨2, "A"⟩) = 1 ∧
      (createFolderPath 2
          (createFolderPath 2 ⟨[], 0⟩ ⟨0, .numeric 85⟩ ["A", "B", "C"]).2
          ⟨0, .numeric 85⟩ ["A", "B", "C"]).2.nodes.countP
        (fun m => m.browseName == ⟨2, "B"⟩) = 1 ∧
      (createFolderPath 2
          (createFolderPath 2 ⟨[], 0⟩ ⟨0, .numeric 85⟩ ["A", "B", "C"]).2
          ⟨0, .numeric 85⟩ ["A", "B", "C"]).2.nodes.countP
        (fun m => m.browseName == ⟨2, "C"⟩) = 1) := by
  have main : ∀ (path : List String) (s : FolderStore) (start : NodeId),
      createFolderPath ns (createFolderPath ns s start path).2 start path =
        createFolderPath ns s start path := by
    intro path
    induction path with
    | nil => intro s start; rfl
    | cons seg rest ih =>
      intro s start
      cases hf : findChildIn s.nodes start ⟨ns, seg⟩ with
      | some c =>
        have h1 : createFolderPath ns s start (seg :: rest) =
            createFolderPath ns s c rest := by
          simp only [createFolderPath]
          rw [hf]
        rw [h1]
        have hf2 : findChildIn (createFolderPath ns s c rest).2.nodes start
            ⟨ns, seg⟩ = some c :=
          findChildIn_preserved ns rest s c start ⟨ns, seg⟩ c hf
        have h2 : createFolderPath ns (createFolderPath ns s c rest).2 start
            (seg :: rest) =
            createFolderPath ns (createFolderPath ns s c rest).2 c rest := by
          simp only [createFolderPath]
          rw [hf2]
        rw [h2]
        exact ih s c
      | none =>
        have h1 : createFolderPath ns s start (seg :: rest) =
            createFolderPath ns
              ⟨s.nodes ++ [⟨⟨ns, .numeric s.nextId⟩, ⟨ns, seg⟩, start⟩],
                s.nextId + 1⟩
              ⟨ns, .numeric s.nextId⟩ rest := by
          simp only [createFolderPath]
          rw [hf]
        have hnone : s.nodes.find?
            (fun m => m.parent == start &&
              m.browseName == (⟨ns, seg⟩ : QualifiedName)) = none := by
          unfold findChildIn at hf
          exact Option.map_eq_none'.mp hf
        have hX : findChildIn
            (s.nodes ++ [⟨⟨ns, .numeric s.nextId⟩, ⟨ns, seg⟩, start⟩]) start
            ⟨ns, seg⟩ = some ⟨ns, .numeric s.nextId⟩ := by
          unfold findChildIn
          rw [List.find?_append, hnone]
          simp
        have hf2 : findChildIn
            (createFolderPath ns
              ⟨s.nodes ++ [⟨⟨ns, .numeric s.nextId⟩, ⟨ns, seg⟩, start⟩],
                s.nextId + 1⟩
              ⟨ns, .numeric s.nextId⟩ rest).2.nodes start ⟨ns, seg⟩ =
            some ⟨ns, .numeric s.nextId⟩ :=
          findChildIn_preserved ns rest _ _ start ⟨ns, seg⟩ _ hX
        have h2 : createFolderPath ns
            (createFolderPath ns
              ⟨s.nodes ++ [⟨⟨ns, .numeric s.nextId⟩, ⟨ns, seg⟩, start⟩],
                s.nextId + 1⟩
              ⟨ns, .numeric s.nextId⟩ rest).2 start (seg :: rest) =
            createFolderPath ns
              (createFolderPath ns
                ⟨s.nodes ++ [⟨⟨ns, .numeric s.nextId⟩, ⟨ns, seg⟩, start⟩],
                  s.nextId + 1⟩
                ⟨ns, .numeric s.nextId⟩ rest).2
              ⟨ns, .numeric s.nextId⟩ rest := by
          simp only [createFolderPath]
          rw [hf2]
        rw [h1, h2]
        exact ih _ _
  exact ⟨main path s start, by decide, by decide, by decide⟩

end Open62541
